import Mathlib

/-
Verification of the incremental user-count system: a `user_list` ledger table,
a single-row `user_stats` counter table kept in sync by AFTER INSERT / AFTER
DELETE row triggers calling `update_user_count`, a `recalculate_user_count`
repair procedure, the `getUserCount` read path of the connection layer, and the
`/api/usercount` HTTP handler.  SQL statements are embedded as pure functions
on an explicit database state; timestamps are abstract `Nat` clock values
passed in as the current time.
-/

namespace UserCount

/-- A row of `user_list`: SERIAL primary key, UNIQUE username, UNIQUE email,
plus creation/update timestamps. -/
structure Member where
  id : Nat
  username : String
  email : String
  created_at : Nat
  updated_at : Nat
deriving Repr, DecidableEq

/-- A row of `user_stats`: `id INTEGER PRIMARY KEY DEFAULT 1`,
`total_users INTEGER NOT NULL`, `last_updated TIMESTAMP`.  The table's CHECK
constraint (`single_row_constraint CHECK (id = 1)`) together with the primary
key allows at most one row, so the table contents are an `Option StatsRow`. -/
structure StatsRow where
  id : Nat
  total_users : Int
  last_updated : Nat
deriving Repr, DecidableEq

/-- The database state: the `user_list` table, the `user_stats` table
(at most one row), and the SERIAL sequence feeding `user_list.id`. -/
structure DBState where
  user_list : List Member
  user_stats : Option StatsRow
  next_id : Nat
deriving Repr, DecidableEq

/-- State right after the provisioning script ran on a fresh database:
empty ledger, and `INSERT INTO user_stats (id, total_users, last_updated)
VALUES (1, 0, CURRENT_TIMESTAMP)`. -/
def initialState (now : Nat) : DBState :=
  { user_list := [], user_stats := some ⟨1, 0, now⟩, next_id := 1 }

/-- `UPDATE user_stats SET ... WHERE id = 1`: applies `f` to the stored row
when it exists and matches the sentinel key, otherwise (zero matching rows)
does nothing — crucially, an UPDATE matching zero rows is not an error. -/
def updateStatsWhereId1 (f : StatsRow → StatsRow) : Option StatsRow → Option StatsRow
  | none => none
  | some r => if r.id = 1 then some (f r) else some r

/-- `SELECT ... FROM user_stats WHERE id = 1`. -/
def selectStatsWhereId1 : Option StatsRow → Option StatsRow
  | none => none
  | some r => if r.id = 1 then some r else none

/-- The trigger operation tag (`TG_OP`); the two triggers installed on
`user_list` fire only for INSERT and DELETE. -/
inductive TriggerOp where
  | insert
  | delete
deriving Repr, DecidableEq

/-- The `update_user_count` trigger function: on INSERT it runs
`UPDATE user_stats SET total_users = total_users + 1, last_updated =
CURRENT_TIMESTAMP WHERE id = 1`; on DELETE the same with `- 1`. -/
def update_user_count (op : TriggerOp) (now : Nat) (st : Option StatsRow) :
    Option StatsRow :=
  match op with
  | .insert =>
      updateStatsWhereId1
        (fun r => { r with total_users := r.total_users + 1, last_updated := now }) st
  | .delete =>
      updateStatsWhereId1
        (fun r => { r with total_users := r.total_users - 1, last_updated := now }) st

/-- The UNIQUE constraints on `user_list.username` and `user_list.email`:
a new row conflicts when some existing row has the same username or email. -/
def hasNaturalKeyConflict (username email : String) (l : List Member) : Bool :=
  l.any (fun x => x.username == username || x.email == email)

/-- Errors surfaced by the database to the caller. -/
inductive DbError where
  | duplicateMember
deriving Repr, DecidableEq

/-- `INSERT INTO user_list (username, email) VALUES (...)` as one transaction:
on a natural-key conflict the statement fails and nothing is committed; on
success the row is appended with a fresh SERIAL id and the AFTER INSERT
row trigger `user_insert_trigger` fires `update_user_count` in the same
transaction. -/
def insertUser (now : Nat) (username email : String) (s : DBState) :
    Except DbError DBState :=
  if hasNaturalKeyConflict username email s.user_list then
    .error .duplicateMember
  else
    .ok { user_list := s.user_list ++ [⟨s.next_id, username, email, now, now⟩],
          user_stats := update_user_count .insert now s.user_stats,
          next_id := s.next_id + 1 }

/-- `DELETE FROM user_list WHERE p` as one transaction: every matching row is
removed, and the AFTER DELETE trigger `user_delete_trigger` fires
`update_user_count` once FOR EACH deleted ROW. -/
def deleteWhere (now : Nat) (p : Member → Bool) (s : DBState) : DBState :=
  { user_list := s.user_list.filter (fun m => !(p m)),
    user_stats :=
      (s.user_list.filter p).foldl
        (fun st _ => update_user_count .delete now st) s.user_stats,
    next_id := s.next_id }

/-- `DELETE FROM user_list WHERE id = uid`. -/
def deleteUser (now : Nat) (uid : Nat) (s : DBState) : DBState :=
  deleteWhere now (fun m => m.id == uid) s

/-- A multi-row `INSERT ... VALUES (...), (...), ...`: the rows are inserted
in order, each firing the row trigger, and the whole statement is atomic —
if any row conflicts, the statement fails and no state change survives. -/
def insertMany (now : Nat) (rows : List (String × String)) (s : DBState) :
    Except DbError DBState :=
  match rows with
  | [] => .ok s
  | (u, e) :: rest =>
      match insertUser now u e s with
      | .error err => .error err
      | .ok s1 => insertMany now rest s1

/-- The `recalculate_user_count` procedure:
`SELECT COUNT(*) INTO actual_count FROM user_list;` then
`UPDATE user_stats SET total_users = actual_count, last_updated =
CURRENT_TIMESTAMP WHERE id = 1;` then `RETURN actual_count`. -/
def recalculate_user_count (now : Nat) (s : DBState) : Int × DBState :=
  let actual : Int := s.user_list.length
  (actual,
   { s with
     user_stats :=
       updateStatsWhereId1
         (fun r => { r with total_users := actual, last_updated := now })
         s.user_stats })

/-- The record returned by the read path: `{total_users, last_updated}`. -/
structure CountResult where
  total_users : Int
  last_updated : Nat
deriving Repr, DecidableEq

/-- `DatabaseConnection.getUserCount`: selects the `user_stats` row with
`id = 1`; when no row comes back it calls `recalculate_user_count()` and then
re-runs the select.  When even the second select returns no row, the
JavaScript `recalcResult.rows[0]` is `undefined`, modelled as `none`. -/
def getUserCount (now : Nat) (s : DBState) : Option CountResult × DBState :=
  match selectStatsWhereId1 s.user_stats with
  | some r => (some ⟨r.total_users, r.last_updated⟩, s)
  | none =>
      let s1 := (recalculate_user_count now s).2
      match selectStatsWhereId1 s1.user_stats with
      | some r => (some ⟨r.total_users, r.last_updated⟩, s1)
      | none => (none, s1)

/-- An HTTP response of the façade: status code and the JSON body fields the
handlers produce (`error`, `message`, `totalUsers`). -/
structure HttpResponse where
  status : Nat
  errorLabel : Option String
  message : Option String
  totalUsers : Option Int
deriving Repr, DecidableEq

/-- The `GET /api/usercount` handler: on success it returns 200 with
`totalUsers`; any error thrown by `getUserCount` is caught and mapped to a
fixed 500 response with a generic body, independent of the error text. -/
def usercountHandler (outcome : Except String CountResult) : HttpResponse :=
  match outcome with
  | .ok r =>
      { status := 200, errorLabel := none, message := none,
        totalUsers := some r.total_users }
  | .error _ =>
      { status := 500, errorLabel := some "Internal Server Error",
        message := some "Failed to retrieve user count", totalUsers := none }

/-- The Fastify global error handler (`setErrorHandler`): connection errors
(ECONNREFUSED / ENOTFOUND) map to 503, everything else to 500.  For the
usercount route it is unreachable, because that route's own try/catch returns
a response instead of rethrowing. -/
def setErrorHandlerResponse (code : String) : HttpResponse :=
  if code = "ECONNREFUSED" ∨ code = "ENOTFOUND" then
    { status := 503, errorLabel := some "Service Unavailable",
      message := some "Database connection failed", totalUsers := none }
  else
    { status := 500, errorLabel := some "Internal Server Error",
      message := some "An unexpected error occurred", totalUsers := none }

/-- Serving `GET /api/usercount` against a reachable database: when
`getUserCount` yields a row the handler returns it; when it yields `none`
(`undefined` in JavaScript), the handler's `parseInt(userStats.total_users)`
throws a TypeError which the surrounding catch converts to the 500 error
response. -/
def serveUserCount (now : Nat) (s : DBState) : HttpResponse × DBState :=
  match getUserCount now s with
  | (some r, s1) => (usercountHandler (.ok r), s1)
  | (none, s1) => (usercountHandler (.error "TypeError"), s1)

/-- A committed mutation statement against the ledger. -/
inductive Mutation where
  | ins (now : Nat) (username email : String)
  | del (now : Nat) (uid : Nat)
deriving Repr, DecidableEq

/-- Executing one mutation transaction: a failed insert rolls back, leaving
the state unchanged; a successful one commits. -/
def applyMutation (m : Mutation) (s : DBState) : DBState :=
  match m with
  | .ins now u e =>
      match insertUser now u e s with
      | .ok s1 => s1
      | .error _ => s
  | .del now uid => deleteUser now uid s

/-- Running a sequence of mutation transactions in order. -/
def runMutations (ms : List Mutation) (s : DBState) : DBState :=
  ms.foldl (fun s m => applyMutation m s) s

/-- The operations that touch the database in the modelled system: ledger
mutations (with their triggers), the reconciliation procedure, and the read
path. -/
inductive Op where
  | mutate (m : Mutation)
  | recalc (now : Nat)
  | readCount (now : Nat)
deriving Repr, DecidableEq

/-- Effect of one operation on the database state. -/
def applyOp (o : Op) (s : DBState) : DBState :=
  match o with
  | .mutate m => applyMutation m s
  | .recalc now => (recalculate_user_count now s).2
  | .readCount now => (getUserCount now s).2

/-- Running a sequence of operations from a state. -/
def runOps (os : List Op) (s : DBState) : DBState :=
  os.foldl (fun s o => applyOp o s) s

/-- The consistency property of the aggregate: the counter row exists under
the sentinel key and stores exactly the ledger cardinality. -/
def Consistent (s : DBState) : Prop :=
  ∃ r, s.user_stats = some r ∧ r.id = 1 ∧
    r.total_users = (s.user_list.length : Int)

/- ### Helper lemmas -/

lemma foldDelete_none (now : Nat) (l : List Member) :
    l.foldl (fun st _ => update_user_count .delete now st) none = none := by
  induction l with
  | nil => rfl
  | cons a t ih =>
      simpa [List.foldl, update_user_count, updateStatsWhereId1] using ih

lemma foldDelete_some (now : Nat) :
    ∀ (l : List Member) (r : StatsRow), r.id = 1 →
      l.foldl (fun st _ => update_user_count .delete now st) (some r)
        = some ⟨1, r.total_users - l.length,
                if l.length = 0 then r.last_updated else now⟩ := by
  intro l
  induction l with
  | nil =>
      intro r hid
      obtain ⟨rid, rt, rl⟩ := r
      simp only [StatsRow.id] at hid
      subst hid
      simp
  | cons a t ih =>
      intro r hid
      obtain ⟨rid, rt, rl⟩ := r
      simp only [StatsRow.id] at hid
      subst hid
      have step :
          update_user_count .delete now (some (⟨1, rt, rl⟩ : StatsRow))
            = some ⟨1, rt - 1, now⟩ := by
        simp [update_user_count, updateStatsWhereId1]
      simp only [List.foldl, step]
      rw [ih ⟨1, rt - 1, now⟩ rfl]
      have h1 : rt - 1 - (t.length : Int) = rt - (((a :: t).length : Nat) : Int) := by
        push_cast [List.length_cons]
        ring
      have h2 : (if (a :: t).length = 0 then rl else now) = now :=
        if_neg (by simp)
      rw [h1, h2, ite_self]

lemma length_filter_split (p : Member → Bool) (l : List Member) :
    (l.filter (fun m => !(p m))).length + (l.filter p).length = l.length := by
  induction l with
  | nil => rfl
  | cons a t ih =>
      by_cases h : p a <;> simp [List.filter, h, ← ih] <;> omega

lemma insertUser_ok_elim {now : Nat} {u e : String} {s s1 : DBState}
    (h : insertUser now u e s = .ok s1) :
    hasNaturalKeyConflict u e s.user_list = false ∧
    s1 = { user_list := s.user_list ++ [⟨s.next_id, u, e, now, now⟩],
           user_stats := update_user_count .insert now s.user_stats,
           next_id := s.next_id + 1 } := by
  by_cases hc : hasNaturalKeyConflict u e s.user_list
  · simp [insertUser, hc] at h
  · simp only [insertUser, hc] at h
    simp only [Bool.false_eq_true, if_false, Except.ok.injEq] at h
    exact ⟨by simpa using hc, h.symm⟩

lemma update_insert_some {now : Nat} {r : StatsRow} (hid : r.id = 1) :
    update_user_count .insert now (some r)
      = some ⟨1, r.total_users + 1, now⟩ := by
  obtain ⟨rid, rt, rl⟩ := r
  simp only [StatsRow.id] at hid
  subst hid
  simp [update_user_count, updateStatsWhereId1]

lemma consistent_insert (now : Nat) (u e : String)
    (s : DBState) (h : Consistent s) :
    Consistent (applyMutation (.ins now u e) s) := by
  obtain ⟨r, hst, hid, htot⟩ := h
  by_cases hc : hasNaturalKeyConflict u e s.user_list
  · simp only [applyMutation, insertUser, hc, if_pos]
    exact ⟨r, hst, hid, htot⟩
  · simp only [applyMutation, insertUser, hc, Bool.false_eq_true, if_false]
    refine ⟨⟨1, r.total_users + 1, now⟩, ?_, rfl, ?_⟩
    · simp [hst, update_insert_some hid]
    · show r.total_users + 1 = _
      simp only [List.length_append, List.length_cons, List.length_nil]
      omega

lemma consistent_deleteWhere (now : Nat) (p : Member → Bool) (s : DBState)
    (h : Consistent s) : Consistent (deleteWhere now p s) := by
  obtain ⟨r, hst, hid, htot⟩ := h
  have hsplit := length_filter_split p s.user_list
  refine ⟨⟨1, r.total_users - (s.user_list.filter p).length,
           if (s.user_list.filter p).length = 0 then r.last_updated else now⟩,
          ?_, rfl, ?_⟩
  · simp only [deleteWhere, hst]
    exact foldDelete_some now (s.user_list.filter p) r hid
  · show r.total_users - ((s.user_list.filter p).length : Int) = _
    simp only [deleteWhere]
    omega

lemma consistent_mutation (m : Mutation) (s : DBState) (h : Consistent s) :
    Consistent (applyMutation m s) := by
  cases m with
  | ins now u e => exact consistent_insert now u e s h
  | del now uid =>
      exact consistent_deleteWhere now (fun m => m.id == uid) s h

lemma consistent_runMutations (ms : List Mutation) :
    ∀ s : DBState, Consistent s → Consistent (runMutations ms s) := by
  induction ms with
  | nil => intro s h; exact h
  | cons m t ih =>
      intro s h
      exact ih (applyMutation m s) (consistent_mutation m s h)

lemma consistent_recalc (now : Nat) (s : DBState) (h : Consistent s) :
    Consistent ((recalculate_user_count now s).2) := by
  obtain ⟨r, hst, hid, _⟩ := h
  refine ⟨⟨1, (s.user_list.length : Int), now⟩, ?_, rfl, rfl⟩
  obtain ⟨rid, rt, rl⟩ := r
  simp only [StatsRow.id] at hid
  subst hid
  simp [recalculate_user_count, hst, updateStatsWhereId1]

lemma consistent_read (now : Nat) (s : DBState) (h : Consistent s) :
    Consistent ((getUserCount now s).2) := by
  obtain ⟨r, hst, hid, htot⟩ := h
  obtain ⟨rid, rt, rl⟩ := r
  simp only [StatsRow.id] at hid
  subst hid
  simp only [getUserCount, hst, selectStatsWhereId1, if_pos]
  exact ⟨⟨1, rt, rl⟩, hst, rfl, htot⟩

lemma consistent_op (o : Op) (s : DBState) (h : Consistent s) :
    Consistent (applyOp o s) := by
  cases o with
  | mutate m => exact consistent_mutation m s h
  | recalc now => exact consistent_recalc now s h
  | readCount now => exact consistent_read now s h

lemma consistent_runOps (os : List Op) :
    ∀ s : DBState, Consistent s → Consistent (runOps os s) := by
  induction os with
  | nil => intro s h; exact h
  | cons o t ih =>
      intro s h
      exact ih (applyOp o s) (consistent_op o s h)

lemma consistent_initial (now : Nat) : Consistent (initialState now) :=
  ⟨⟨1, 0, now⟩, rfl, rfl, rfl⟩

lemma insertMany_ok_elim (now : Nat) :
    ∀ (rows : List (String × String)) (s s1 : DBState) (r : StatsRow),
      s.user_stats = some r → r.id = 1 → insertMany now rows s = .ok s1 →
      ∃ r1, s1.user_stats = some r1 ∧ r1.id = 1 ∧
        r1.total_users = r.total_users + rows.length ∧
        s1.user_list.length = s.user_list.length + rows.length := by
  intro rows
  induction rows with
  | nil =>
      intro s s1 r hst hid h
      have h1 : s = s1 := by
        simpa [insertMany] using h
      subst h1
      exact ⟨r, hst, hid, by simp, by simp⟩
  | cons ue rest ih =>
      intro s s1 r hst hid h
      obtain ⟨u, e⟩ := ue
      simp only [insertMany] at h
      cases hins : insertUser now u e s with
      | error err =>
          rw [hins] at h
          simp at h
      | ok s2 =>
          rw [hins] at h
          have h2 : insertMany now rest s2 = .ok s1 := h
          obtain ⟨-, hs2⟩ := insertUser_ok_elim hins
          have hst2 : s2.user_stats = some ⟨1, r.total_users + 1, now⟩ := by
            rw [hs2]
            simp [hst, update_insert_some hid]
          obtain ⟨r1, hr1, hrid, hrtot, hrlen⟩ :=
            ih s2 s1 ⟨1, r.total_users + 1, now⟩ hst2 rfl h2
          refine ⟨r1, hr1, hrid, ?_, ?_⟩
          · rw [hrtot]
            push_cast [List.length_cons]
            ring
          · rw [hrlen, hs2]
            simp only [List.length_append, List.length_cons, List.length_nil]
            omega

/- ### Claim theorems -/

/-- C1: starting from any consistent state (the counter row present under the
sentinel key and equal to the ledger cardinality), after every sequence of
committed insert and delete transactions against `user_list`, the stored
`user_stats.total_users` still equals the number of rows in `user_list`.
Since every prefix of a sequence is itself a sequence, this gives the
invariant after each individual commit. -/
theorem c1_counter_tracks_ledger (ms : List Mutation) (s : DBState)
    (h : Consistent s) : Consistent (runMutations ms s) :=
  consistent_runMutations ms s h

/-- C1 witness: the invariant holds concretely after two inserts and a
delete from the provisioned initial state. -/
theorem c1_counter_tracks_ledger_witness :
    Consistent (runMutations
      [Mutation.ins 1 "a" "a@x", Mutation.ins 2 "b" "b@x", Mutation.del 3 1]
      (initialState 0)) :=
  c1_counter_tracks_ledger _ (initialState 0) (consistent_initial 0)

/-- C2: when the counter row is present under the sentinel key, a committed
insertion increments `total_users` by exactly 1 and stamps `last_updated`
with the current time, and a committed deletion of one matching row
decrements it by exactly 1 with the same stamping; both happen inside the
single atomic transaction modelled by `insertUser` / `deleteUser` (the
trigger effect and the row change appear together in the one returned
state, and a failed insert commits neither). -/
theorem c2_trigger_adjusts_by_one :
    (∀ (now : Nat) (u e : String) (s s1 : DBState) (r : StatsRow),
        s.user_stats = some r → r.id = 1 → insertUser now u e s = .ok s1 →
        s1.user_stats = some ⟨1, r.total_users + 1, now⟩) ∧
    (∀ (now uid : Nat) (s : DBState) (r : StatsRow),
        s.user_stats = some r → r.id = 1 →
        (s.user_list.filter (fun m => m.id == uid)).length = 1 →
        (deleteUser now uid s).user_stats = some ⟨1, r.total_users - 1, now⟩) := by
  constructor
  · intro now u e s s1 r hst hid h
    obtain ⟨-, hs1⟩ := insertUser_ok_elim h
    rw [hs1]
    simp [hst, update_insert_some hid]
  · intro now uid s r hst hid hlen
    simp only [deleteUser, deleteWhere, hst]
    rw [foldDelete_some now _ r hid, hlen]
    simp

/-- C2 witness: inserting a second member moves the counter from 1 to 2 at
time 5; deleting the single member with id 1 moves it from 1 to 0 at
time 9. -/
theorem c2_trigger_adjusts_by_one_witness :
    ((⟨[⟨1, "a", "a@x", 0, 0⟩, ⟨2, "c", "c@x", 5, 5⟩],
       some ⟨1, 2, 5⟩, 3⟩ : DBState).user_stats = some ⟨1, 2, 5⟩) ∧
    ((deleteUser 9 1 ⟨[⟨1, "a", "a@x", 0, 0⟩], some ⟨1, 1, 0⟩, 2⟩).user_stats
      = some ⟨1, 0, 9⟩) :=
  ⟨c2_trigger_adjusts_by_one.1 5 "c" "c@x"
      ⟨[⟨1, "a", "a@x", 0, 0⟩], some ⟨1, 1, 0⟩, 2⟩ _ ⟨1, 1, 0⟩ rfl rfl rfl,
   c2_trigger_adjusts_by_one.2 9 1
      ⟨[⟨1, "a", "a@x", 0, 0⟩], some ⟨1, 1, 0⟩, 2⟩ ⟨1, 1, 0⟩ rfl rfl rfl⟩

/-- C3: whatever value the counter row currently stores (possibly wrong),
`recalculate_user_count` returns the true cardinality of `user_list`, and
overwrites the counter row's `total_users` and `last_updated` with that
value and the current time. -/
theorem c3_recalculate_restores_truth (now : Nat) (s : DBState) (r : StatsRow)
    (hst : s.user_stats = some r) (hid : r.id = 1) :
    recalculate_user_count now s
      = ((s.user_list.length : Int),
         { s with user_stats := some ⟨1, (s.user_list.length : Int), now⟩ }) := by
  obtain ⟨rid, rt, rl⟩ := r
  simp only [StatsRow.id] at hid
  subst hid
  simp [recalculate_user_count, hst, updateStatsWhereId1]

/-- C3 witness: a counter drifted to 99 over a two-member ledger is restored
to 2, which is also returned. -/
theorem c3_recalculate_restores_truth_witness :
    recalculate_user_count 7
        ⟨[⟨1, "a", "a@x", 0, 0⟩, ⟨2, "b", "b@x", 0, 0⟩], some ⟨1, 99, 0⟩, 3⟩
      = (2, ⟨[⟨1, "a", "a@x", 0, 0⟩, ⟨2, "b", "b@x", 0, 0⟩], some ⟨1, 2, 7⟩, 3⟩) :=
  c3_recalculate_restores_truth 7
    ⟨[⟨1, "a", "a@x", 0, 0⟩, ⟨2, "b", "b@x", 0, 0⟩], some ⟨1, 99, 0⟩, 3⟩
    ⟨1, 99, 0⟩ rfl rfl

/-- C4: evaluation at the failing input.  With the counter row deleted and
one member in the ledger, `getUserCount` does call the reconciliation
procedure, but that procedure's UPDATE matches zero rows, so the row is
still absent afterwards: the read yields no count (`rows[0]` is undefined),
the counter row is not restored, and the route answers 500 instead of
returning the ledger cardinality 1. -/
theorem c4_selfheal_read_still_fails :
    (getUserCount 100 ⟨[⟨1, "a", "a@x", 0, 0⟩], none, 2⟩).1 = none ∧
    (getUserCount 100 ⟨[⟨1, "a", "a@x", 0, 0⟩], none, 2⟩).2.user_stats = none ∧
    (serveUserCount 100 ⟨[⟨1, "a", "a@x", 0, 0⟩], none, 2⟩).1.status = 500 :=
  ⟨rfl, rfl, rfl⟩

/-- C5 counterexample: with the counter row absent, an insert and a delete
both commit successfully — no failure propagates and nothing rolls back,
contradicting the claimed MissingAggregateRow behavior. -/
theorem c5_counterexample :
    insertUser 7 "a" "a@x" ⟨[], none, 1⟩
        = Except.ok ⟨[⟨1, "a", "a@x", 7, 7⟩], none, 2⟩ ∧
    (applyMutation (.ins 7 "a" "a@x") ⟨[], none, 1⟩).user_stats = none ∧
    (deleteUser 8 1 ⟨[⟨1, "a", "a@x", 7, 7⟩], none, 2⟩).user_list = [] ∧
    (deleteUser 8 1 ⟨[⟨1, "a", "a@x", 7, 7⟩], none, 2⟩).user_stats = none :=
  ⟨rfl, rfl, rfl, rfl⟩

/-- C5 amended: when the counter row is missing, the trigger's
`UPDATE ... WHERE id = 1` matches zero rows and silently does nothing: a
conflict-free insert commits with the member row added and the counter still
absent, and a delete commits removing the matching rows with the counter
still absent.  No MissingAggregateRow condition exists and no rollback
occurs. -/
theorem c5_missing_row_mutation_commits :
    (∀ (now : Nat) (u e : String) (s : DBState),
        s.user_stats = none → hasNaturalKeyConflict u e s.user_list = false →
        insertUser now u e s
          = .ok { user_list := s.user_list ++ [⟨s.next_id, u, e, now, now⟩],
                  user_stats := none, next_id := s.next_id + 1 }) ∧
    (∀ (now : Nat) (p : Member → Bool) (s : DBState),
        s.user_stats = none →
        deleteWhere now p s
          = { user_list := s.user_list.filter (fun m => !(p m)),
              user_stats := none, next_id := s.next_id }) := by
  constructor
  · intro now u e s habs hc
    simp [insertUser, hc, update_user_count, updateStatsWhereId1, habs]
  · intro now p s habs
    simp [deleteWhere, habs, foldDelete_none]

/-- C5 amended witness: concrete commit of an insert and then a delete with
the counter row absent throughout. -/
theorem c5_missing_row_mutation_commits_witness :
    (((⟨[], none, 1⟩ : DBState).user_stats = none ∧
      hasNaturalKeyConflict "a" "a@x" ([] : List Member) = false) ∧
     insertUser 7 "a" "a@x" ⟨[], none, 1⟩
       = .ok ⟨[⟨1, "a", "a@x", 7, 7⟩], none, 2⟩) ∧
    deleteWhere 8 (fun m => m.id == 1) ⟨[⟨1, "a", "a@x", 7, 7⟩], none, 2⟩
      = ⟨[], none, 2⟩ :=
  ⟨⟨⟨rfl, rfl⟩, c5_missing_row_mutation_commits.1 7 "a" "a@x" ⟨[], none, 1⟩ rfl rfl⟩,
   c5_missing_row_mutation_commits.2 8 (fun m => m.id == 1)
     ⟨[⟨1, "a", "a@x", 7, 7⟩], none, 2⟩ rfl⟩

/-- C6: an insert whose username or email collides with a live member row
fails with `duplicateMember`, and the failed transaction leaves the whole
state — in particular `user_stats.total_users` — unchanged. -/
theorem c6_duplicate_insert_rejected (now : Nat) (u e : String) (s : DBState)
    (h : ∃ m ∈ s.user_list, m.username = u ∨ m.email = e) :
    insertUser now u e s = .error .duplicateMember ∧
    applyMutation (.ins now u e) s = s := by
  have hc : hasNaturalKeyConflict u e s.user_list = true := by
    obtain ⟨m, hm, hkey⟩ := h
    refine List.any_eq_true.mpr ⟨m, hm, ?_⟩
    cases hkey with
    | inl h1 => simp [h1]
    | inr h2 => simp [h2]
  refine ⟨?_, ?_⟩
  · simp [insertUser, hc]
  · simp [applyMutation, insertUser, hc]

/-- C6 witness: re-inserting username "a" over a one-member ledger fails
with `duplicateMember` and leaves the state (counter included) unchanged. -/
theorem c6_duplicate_insert_rejected_witness :
    (∃ m ∈ ([⟨1, "a", "a@x", 0, 0⟩] : List Member),
        m.username = "a" ∨ m.email = "zz") ∧
    insertUser 4 "a" "zz" ⟨[⟨1, "a", "a@x", 0, 0⟩], some ⟨1, 1, 0⟩, 2⟩
        = .error .duplicateMember ∧
    applyMutation (.ins 4 "a" "zz") ⟨[⟨1, "a", "a@x", 0, 0⟩], some ⟨1, 1, 0⟩, 2⟩
        = ⟨[⟨1, "a", "a@x", 0, 0⟩], some ⟨1, 1, 0⟩, 2⟩ :=
  ⟨⟨⟨1, "a", "a@x", 0, 0⟩, List.mem_cons_self _ _, Or.inl rfl⟩,
   c6_duplicate_insert_rejected 4 "a" "zz"
     ⟨[⟨1, "a", "a@x", 0, 0⟩], some ⟨1, 1, 0⟩, 2⟩
     ⟨⟨1, "a", "a@x", 0, 0⟩, List.mem_cons_self _ _, Or.inl rfl⟩⟩

/-- C7 counterexample: when `getUserCount` throws a connection failure, the
usercount route answers 500 "Internal Server Error", not the 503
service-unavailable condition the claim describes (the 503 mapping in the
global error handler is never reached because the route catches the error
itself). -/
theorem c7_counterexample :
    (usercountHandler (Except.error "connect ECONNREFUSED 127.0.0.1:5432")).status = 500 ∧
    (usercountHandler (Except.error "connect ECONNREFUSED 127.0.0.1:5432")).status ≠ 503 ∧
    (usercountHandler (Except.error "connect ECONNREFUSED 127.0.0.1:5432")).errorLabel
      ≠ some "Service Unavailable" :=
  ⟨rfl, by decide, by decide⟩

/-- C7 amended: on any storage error during a count read, the route responds
with a fixed generic 500 "Internal Server Error" body ("Failed to retrieve
user count"); the response is the same for every error text, so the internal
error is never exposed verbatim, but the condition reported is 500, not
service-unavailable. -/
theorem c7_read_error_mapped_to_generic_500 (msg : String) :
    usercountHandler (Except.error msg)
      = { status := 500, errorLabel := some "Internal Server Error",
          message := some "Failed to retrieve user count", totalUsers := none } ∧
    usercountHandler (Except.error msg) = usercountHandler (Except.error "") :=
  ⟨rfl, rfl⟩

/-- C8: running `recalculate_user_count` twice with no intervening mutation
returns the same count both times, and the stored `total_users` after the
second run equals the one after the first (only `last_updated` may move). -/
theorem c8_recalculate_idempotent (now1 now2 : Nat) (s : DBState) :
    (recalculate_user_count now2 (recalculate_user_count now1 s).2).1
      = (recalculate_user_count now1 s).1 ∧
    ((recalculate_user_count now2 (recalculate_user_count now1 s).2).2).user_stats.map
        StatsRow.total_users
      = ((recalculate_user_count now1 s).2).user_stats.map StatsRow.total_users := by
  constructor
  · rfl
  · cases hst : s.user_stats with
    | none => simp [recalculate_user_count, updateStatsWhereId1, hst]
    | some r =>
        by_cases hid : r.id = 1
        · simp [recalculate_user_count, updateStatsWhereId1, hst, hid]
        · simp [recalculate_user_count, updateStatsWhereId1, hst, hid]

/-- C9: from the provisioned initial state, after any sequence of ledger
mutations, reconciliations and reads, the `user_stats` table holds exactly
one row, its key is the sentinel 1, and its count is non-negative. -/
theorem c9_single_row_nonneg (os : List Op) (now : Nat) :
    ∃ r, (runOps os (initialState now)).user_stats = some r ∧ r.id = 1 ∧
      0 ≤ r.total_users := by
  obtain ⟨r, hst, hid, htot⟩ :=
    consistent_runOps os (initialState now) (consistent_initial now)
  exact ⟨r, hst, hid, by simp [htot]⟩

/-- C10: the triggers fire once per affected row, so a committed k-row bulk
insert raises the counter by exactly k, and a bulk delete removing k
matching rows lowers it by exactly k — the same net effect as k single-row
mutations. -/
theorem c10_bulk_mutation_net_effect :
    (∀ (now : Nat) (rows : List (String × String)) (s s1 : DBState) (r : StatsRow),
        s.user_stats = some r → r.id = 1 → insertMany now rows s = .ok s1 →
        ∃ r1, s1.user_stats = some r1 ∧
          r1.total_users = r.total_users + rows.length ∧
          s1.user_list.length = s.user_list.length + rows.length) ∧
    (∀ (now : Nat) (p : Member → Bool) (s : DBState) (r : StatsRow),
        s.user_stats = some r → r.id = 1 →
        ∃ r1, (deleteWhere now p s).user_stats = some r1 ∧
          r1.total_users = r.total_users - (s.user_list.filter p).length ∧
          (deleteWhere now p s).user_list.length
            = s.user_list.length - (s.user_list.filter p).length) := by
  constructor
  · intro now rows s s1 r hst hid h
    obtain ⟨r1, hr1, -, hrtot, hrlen⟩ := insertMany_ok_elim now rows s s1 r hst hid h
    exact ⟨r1, hr1, hrtot, hrlen⟩
  · intro now p s r hst hid
    have hsplit := length_filter_split p s.user_list
    refine ⟨⟨1, r.total_users - (s.user_list.filter p).length,
             if (s.user_list.filter p).length = 0 then r.last_updated else now⟩,
            ?_, rfl, ?_⟩
    · simp only [deleteWhere, hst]
      exact foldDelete_some now (s.user_list.filter p) r hid
    · simp only [deleteWhere]
      omega

/-- C10 witness: a 2-row bulk insert into the fresh database yields count 2,
and a bulk delete matching one of the two members yields count 1. -/
theorem c10_bulk_mutation_net_effect_witness :
    (∃ r1, (⟨[⟨1, "a", "a@x", 3, 3⟩, ⟨2, "b", "b@x", 3, 3⟩],
              some ⟨1, 2, 3⟩, 3⟩ : DBState).user_stats = some r1 ∧
        r1.total_users = 2 ∧
        (⟨[⟨1, "a", "a@x", 3, 3⟩, ⟨2, "b", "b@x", 3, 3⟩],
          some ⟨1, 2, 3⟩, 3⟩ : DBState).user_list.length = 2) ∧
    (∃ r1, (deleteWhere 9 (fun m => m.username == "a")
              ⟨[⟨1, "a", "a@x", 3, 3⟩, ⟨2, "b", "b@x", 3, 3⟩],
               some ⟨1, 2, 3⟩, 3⟩).user_stats = some r1 ∧
        r1.total_users = 1 ∧
        (deleteWhere 9 (fun m => m.username == "a")
          ⟨[⟨1, "a", "a@x", 3, 3⟩, ⟨2, "b", "b@x", 3, 3⟩],
           some ⟨1, 2, 3⟩, 3⟩).user_list.length = 1) :=
  ⟨c10_bulk_mutation_net_effect.1 3 [("a", "a@x"), ("b", "b@x")]
     (initialState 0)
     ⟨[⟨1, "a", "a@x", 3, 3⟩, ⟨2, "b", "b@x", 3, 3⟩], some ⟨1, 2, 3⟩, 3⟩
     ⟨1, 0, 0⟩ rfl rfl rfl,
   c10_bulk_mutation_net_effect.2 9 (fun m => m.username == "a")
     ⟨[⟨1, "a", "a@x", 3, 3⟩, ⟨2, "b", "b@x", 3, 3⟩], some ⟨1, 2, 3⟩, 3⟩
     ⟨1, 2, 3⟩ rfl rfl⟩

end UserCount
